import Mathlib

/-!
Verification of the file-replicator repository (Python) against its
natural-language specification, via a shallow embedding of the relevant
source functions (src/file_replicator/tar_adapter.py, lib.py, cli.py).

Conventions of the embedding:
* Filesystem paths are modelled as lists of path components (`FsPath`), so
  that `os.path.join` is list append and `os.path.relpath` under a prefix
  is dropping the prefix.
* Subprocess executions are modelled by their observable outcome: either
  the process could not be launched (`ProbeResult.launchFailure`, Python
  `FileNotFoundError`), or it completed with an exit status and captured
  output.
* Python exceptions propagating out of a function are modelled with
  `Except`; a caught exception does not appear in the result.
* Wall-clock durations (`time.time()` differences) are modelled as
  natural numbers; only their ordering matters to the control flow.
-/

/-- A filesystem path, as a list of path components. -/
abbrev FsPath := List String

/-- Is `needle` a contiguous sublist of the haystack? -/
def chars_contain (needle : List Char) : List Char → Bool
  | [] => needle.isEmpty
  | c :: rest => needle.isPrefixOf (c :: rest) || chars_contain needle rest

/-- Substring containment, modelling Python `needle in hay` on strings. -/
def str_contains (hay needle : String) : Bool :=
  chars_contain needle.data hay.data

/-! ## tar_adapter.py

The Python module defines an abstract tar-adapter class with three concrete
flavors (GnuTarAdapter with an optional executable-name prefix, BsdTarAdapter,
BusyBoxTarAdapter).  Following the spec's own design note ("a closed
tagged-variant type"), the class hierarchy is embedded as one inductive with
the per-variant method tables as functions on it. -/

/-- The tar adapter variants: `gnu pre` embeds `GnuTarAdapter(prefix=pre)`,
`bsd` embeds `BsdTarAdapter`, `busybox` embeds `BusyBoxTarAdapter`. -/
inductive TarAdapter
  | gnu (pre : String)
  | bsd
  | busybox
deriving DecidableEq

/-- `AbstractTarAdapter.cmd` / `PrefixedTarAdapter.cmd`. -/
def TarAdapter.cmd : TarAdapter → String
  | .gnu pre => pre ++ "tar"
  | .bsd => "tar"
  | .busybox => "tar"

/-- `receiver_options` of each adapter class (tar_adapter.py lines 71-72,
85-86, 99-100). -/
def TarAdapter.receiver_options : TarAdapter → List String
  | .gnu _ => ["--no-same-owner", "--extract", "--verbose"]
  | .bsd => ["-o", "-x", "-v"]
  | .busybox => ["x", "-v"]

/-- `sender_options(src_file)` of each adapter class (tar_adapter.py lines
74-75, 88-89, 102-103). -/
def TarAdapter.sender_options : TarAdapter → String → List String
  | .gnu _, src_file => ["--create", src_file, "--to-stdout", "--ignore-failed-read"]
  | .bsd, src_file => ["-c", "-f", "-", src_file]
  | .busybox, src_file => ["c", "-f", "-", src_file]

/-- `match_flavor_output(output)` of each adapter class (tar_adapter.py lines
77-78, 91-92, 105-106): Python `"GNU tar" in output` etc. -/
def TarAdapter.match_flavor_output : TarAdapter → String → Bool
  | .gnu _, output => str_contains output "GNU tar"
  | .bsd, output => str_contains output "bsdtar"
  | .busybox, output => str_contains output "busybox"

/-- `receiver_cmd()`: executable name followed by the receiver options. -/
def TarAdapter.receiver_cmd (t : TarAdapter) : List String :=
  t.cmd :: t.receiver_options

/-- `sender_cmd(src_file)`: executable name followed by the sender options. -/
def TarAdapter.sender_cmd (t : TarAdapter) (src_file : String) : List String :=
  t.cmd :: t.sender_options src_file

/-- Observable outcome of trying to execute a version probe with
`subprocess.run`: the binary (or connection command) could not be launched
at all (Python `FileNotFoundError`), or the process completed with an exit
status and captured standard output. -/
inductive ProbeResult
  | launchFailure
  | completed (returncode : Nat) (stdout : String)
deriving DecidableEq

/-- The default candidate list of `detect_local_tar` (tar_adapter.py lines
111-117). -/
def default_local_acceptable : List TarAdapter :=
  [.gnu "", .gnu "g", .bsd, .busybox]

/-- The default candidate list of `detect_remote_tar` (tar_adapter.py line
136). -/
def default_remote_acceptable : List TarAdapter :=
  [.gnu "", .gnu "g"]

/-- `detect_local_tar` (tar_adapter.py lines 109-130), over the candidates
paired with the outcome of their version probe.  `subprocess.run` is called
with `check=True`, so a nonzero exit raises `CalledProcessError`; that and
`FileNotFoundError` are caught by the `except` clause and `continue` to the
next candidate.  Otherwise `match_flavor_output` is tested on the captured
output and the first match is returned; `None` if no candidate matched. -/
def detect_local_tar : List (TarAdapter × ProbeResult) → Option TarAdapter
  | [] => none
  | (t, r) :: rest =>
    match r with
    | .launchFailure => detect_local_tar rest
    | .completed returncode stdout =>
      if returncode ≠ 0 then detect_local_tar rest
      else if t.match_flavor_output stdout then some t
      else detect_local_tar rest

/-- `detect_remote_tar` (tar_adapter.py lines 133-149), over the candidates
paired with the outcome of running the connection command with the probe text
as input.  A `FileNotFoundError` while launching the connection command is
re-raised as `RuntimeError` (line 146).  Note that this `subprocess.run` call
has no `check=True`, so `CalledProcessError` is never raised and the exit
status of the probe is ignored: `match_flavor_output` is tested on the
captured output regardless. -/
def detect_remote_tar : List (TarAdapter × ProbeResult) → Except String (Option TarAdapter)
  | [] => Except.ok none
  | (t, r) :: rest =>
    match r with
    | .launchFailure => Except.error "Error using connection command"
    | .completed _ stdout =>
      if t.match_flavor_output stdout then Except.ok (some t)
      else detect_remote_tar rest

/-! ## lib.py: copy_file (inside make_file_replicator)

`copy_file` (lib.py lines 63-81) runs the local adapter's sender command with
`subprocess.run(..., check=True, stderr=subprocess.PIPE)`.  Its observable
control flow depends only on the sender subprocess's exit status and captured
standard-error text, which are the parameters of the embedding. -/

/-- The exceptions `copy_file` can propagate: `CalledProcessError` raised by
`subprocess.run(check=True)` on a nonzero exit status, and the
`RuntimeError` raised at lib.py line 80 on an unexpected diagnostic. -/
inductive CopyFileError
  | calledProcessError (returncode : Nat)
  | runtimeError (msg : String)
deriving DecidableEq

/-- `copy_file` (lib.py lines 63-81), as a function of the sender
subprocess's exit status and captured stderr.  With `check=True`, a nonzero
exit raises `CalledProcessError` before the stderr test is reached.
Otherwise: nonempty stderr containing "No such file or directory" is
ignored (file removed before it could be copied); any other nonempty stderr
raises `RuntimeError`; the function then returns normally. -/
def copy_file (returncode : Nat) (stderr : String) : Except CopyFileError Unit :=
  if returncode ≠ 0 then Except.error (CopyFileError.calledProcessError returncode)
  else if stderr ≠ "" then
    if str_contains stderr "No such file or directory" then Except.ok ()
    else Except.error (CopyFileError.runtimeError ("ERROR: " ++ stderr))
  else Except.ok ()

/-! ## lib.py: replicate_all_files -/

/-- `os.path.join(dir, rel)` for a relative second argument, on
component-list paths. -/
def os_path_join (dir rel : FsPath) : FsPath := dir ++ rel

/-- `replicate_all_files` (lib.py lines 100-105): walk the tree, and for each
discovered file (a path relative to `src_dir`, as produced by
`pathspec.util.iter_tree`) that the ignore spec does not match, call
`copy_file(os.path.join(src_dir, filename))`.  The traversal is out of scope
(library code), so it is the `tree` parameter; the returned list is the
sequence of paths passed to `copy_file`. -/
def replicate_all_files (src_dir : FsPath) (tree : List FsPath) (spec : FsPath → Bool) :
    List FsPath :=
  match tree with
  | [] => []
  | filename :: rest =>
    if spec filename then replicate_all_files src_dir rest spec
    else os_path_join src_dir filename :: replicate_all_files src_dir rest spec

/-! ## lib.py: event handlers -/

/-- The kind of a watchdog change event.  A moved event carries its
destination path (`dest_path` is an attribute only of moved events, which is
what `has_attribute(event, "dest_path")` tests in lib.py line 143). -/
inductive EventKind
  | created
  | modified
  | deleted
  | moved (dest : FsPath)
deriving DecidableEq

/-- Python `event.event_type == "deleted"`. -/
def EventKind.isDeleted : EventKind → Bool
  | .deleted => true
  | _ => false

/-- Python `event.event_type == "modified"`. -/
def EventKind.isModified : EventKind → Bool
  | .modified => true
  | _ => false

/-- The `dest_path` attribute: present exactly on moved events. -/
def EventKind.movedDest : EventKind → Option FsPath
  | .moved dest => some dest
  | _ => none

/-- A watchdog filesystem event as consumed by the handlers: its kind, the
`is_directory` flag, and the primary (`src_path`) path, which the observer
reports as delivered by the notification layer (an absolute path under the
watched root, since lib.py line 169 schedules the observer on
`os.path.abspath(src_dir)`). -/
structure FsEvent where
  kind : EventKind
  is_directory : Bool
  src_path : FsPath
deriving DecidableEq

/-- `CopyFileEventHandler.on_any_event` (lib.py lines 116-128), returning the
list of paths passed to `copy_file`: deleted events are ignored; modified
events on directories are ignored; moved events copy the destination path;
every other event copies the primary path. -/
def on_any_event (e : FsEvent) : List FsPath :=
  if e.kind.isDeleted then []
  else if e.is_directory && e.kind.isModified then []
  else
    match e.kind.movedDest with
    | some dest => [dest]
    | none => [e.src_path]

/-- `GitIgnoreCopyFileEventHandler.dispatch` (lib.py lines 136-149): if the
event's `src_path` is truthy (nonempty) and the ignore spec matches it, drop
the event; if the event has a `dest_path` (i.e. is a moved event) and the
spec matches it, drop the event; otherwise defer to the superclass dispatch,
whose only effect here is `on_any_event`.  The spec is applied to the paths
exactly as carried by the event (they are not relativized). -/
def gitignore_dispatch (spec : FsPath → Bool) (e : FsEvent) : List FsPath :=
  if !e.src_path.isEmpty && spec e.src_path then []
  else if (match e.kind.movedDest with
           | some dest => spec dest
           | none => false) then []
  else on_any_event e

/-- `os.path.relpath(p, root)` for `p` lying under `root`, on component-list
paths: drop the root prefix.  Used only to state what the specification
asserts about ignore matching (a matcher is given "a path relative to the
source root"), for comparison with `gitignore_dispatch`. -/
def os_path_relpath (p root : FsPath) : FsPath := p.drop root.length

/-! ## lib.py: replicate_files_on_change

`replicate_files_on_change` (lib.py lines 162-191) starts an observer and
then loops: each iteration first checks `if timeout:` (Python truthiness:
false for `None` and for `0`) and, when truthy, calls
`raise_if_timeout(last_event_timestamp, timeout)`, which raises
`NoChangeTimeoutError` when the elapsed time exceeds the timeout; it then
sleeps (during which a `KeyboardInterrupt` may arrive).  Both
`KeyboardInterrupt` and `NoChangeTimeoutError` are caught (line 187), the
observer is stopped and joined, and the function returns normally.

The embedding runs the loop over a finite trace of poll iterations: each
entry gives the elapsed time since the last event at the start of the
iteration and whether a `KeyboardInterrupt` arrives during the sleep.  The
result is `none` while the trace is exhausted with the loop still running,
or `some` outcome when the loop terminates. -/

/-- Python truthiness of the `timeout` argument (`None` and `0` are falsy). -/
def py_truthy : Option Nat → Bool
  | none => false
  | some n => n != 0

/-- `raise_if_timeout` (lib.py lines 156-159): raise `NoChangeTimeoutError`
when the elapsed time strictly exceeds the timeout. -/
def raise_if_timeout (elapsed timeout : Nat) : Except String Unit :=
  if elapsed > timeout then
    Except.error ("No changes detected for " ++ toString elapsed ++ " seconds.")
  else Except.ok ()

/-- How a terminated watch loop terminated. -/
inductive TerminationPath
  | timedOut
  | interrupted
deriving DecidableEq

/-- Observable outcome of a terminated watch loop: which path terminated it,
whether the observer was stopped (and joined) before returning, and which
exception, if any, propagated to the caller (`none` = returned normally). -/
structure WatchOutcome where
  path : TerminationPath
  observerStopped : Bool
  raised : Option String
deriving DecidableEq

/-- The `while True` loop of `replicate_files_on_change` together with its
`except (KeyboardInterrupt, NoChangeTimeoutError)` handler (lib.py lines
182-191), over a trace of poll iterations `(elapsed, interrupt)`.  Both
caught exceptions stop the observer and lead to a normal return (`raised =
none`). -/
def replicate_files_on_change (timeout : Option Nat) :
    List (Nat × Bool) → Option WatchOutcome
  | [] => none
  | (elapsed, interrupt) :: rest =>
    if py_truthy timeout then
      match raise_if_timeout elapsed (timeout.getD 0) with
      | Except.error _ => some ⟨TerminationPath.timedOut, true, none⟩
      | Except.ok _ =>
        if interrupt then some ⟨TerminationPath.interrupted, true, none⟩
        else replicate_files_on_change timeout rest
    else
      if interrupt then some ⟨TerminationPath.interrupted, true, none⟩
      else replicate_files_on_change timeout rest

/-! ## cli.py: main

`main` (cli.py lines 84-171) validates its arguments, resolves the local and
remote tar adapters, and opens the replication session with
`make_file_replicator`.  The embedding covers the control flow from line 131
to the session opening: the three argument validations each `raise
click.UsageError`; the remote-adapter check at lines 147-148 constructs a
`click.UsageError` object but does not raise it, so execution continues.
The remote adapter is `Option TarAdapter` because `--remote-tar-detect`
resolves it via `detect_remote_tar`, which may return `None`. -/

/-- Python `isinstance(remote_tar, GnuTarAdapter)` on the resolved remote
adapter (`None` is not an instance). -/
def isinstance_gnu : Option TarAdapter → Bool
  | some (.gnu _) => true
  | _ => false

/-- Observable outcome of `main` up to the session opening: the message of a
raised `click.UsageError` if any, the message of a `click.UsageError` that
was constructed but never raised (cli.py line 148), and whether
`make_file_replicator` was entered. -/
structure MainOutcome where
  raisedUsageError : Option String
  constructedUnraisedUsageError : Option String
  sessionOpened : Bool
deriving DecidableEq

/-- The validation and adapter-check prefix of `main` (cli.py lines 131-163),
as a function of the connection command, whether `dest_parent_dir` is an
absolute path, whether `src_dir` exists and is a directory, and the resolved
remote adapter.  Note that at lines 147-148 the code constructs
`click.UsageError("Cannot use non-gnu remote tar!")` without a `raise`
statement, so the session is opened regardless of the remote adapter. -/
def main_model (connection_command : List String) (dest_parent_dir_is_abs : Bool)
    (src_dir_exists_and_is_dir : Bool) (remote_tar : Option TarAdapter) : MainOutcome :=
  if connection_command.isEmpty then
    ⟨some "Please provide a connection command to access the destination server.",
     none, false⟩
  else if !dest_parent_dir_is_abs then
    ⟨some "The destination parent directory must be an absolute path.", none, false⟩
  else if !src_dir_exists_and_is_dir then
    ⟨some "The source destination must exist and be a directory.", none, false⟩
  else if !isinstance_gnu remote_tar then
    ⟨none, some "Cannot use non-gnu remote tar!", true⟩
  else
    ⟨none, none, true⟩

/-! ## Theorems -/

/-- A candidate is accepted by `detect_local_tar`: its probe launched,
exited with status 0, and its output matched the candidate's flavor. -/
def local_probe_ok (x : TarAdapter × ProbeResult) : Bool :=
  match x.2 with
  | .launchFailure => false
  | .completed returncode stdout => returncode == 0 && x.1.match_flavor_output stdout

/-- A candidate makes `detect_remote_tar` stop scanning: either its probe
process could not be launched (fatal), or its output matched. -/
def remote_probe_trigger (x : TarAdapter × ProbeResult) : Bool :=
  match x.2 with
  | .launchFailure => true
  | .completed _ stdout => x.1.match_flavor_output stdout

/-- Claim C6: `detect_local_tar` examines candidates in order; a candidate
whose probe fails to launch or exits nonzero is skipped; otherwise its
`match_flavor_output` predicate is tested on the captured output; the first
candidate whose predicate holds is returned, and `none` is returned if no
candidate matched.  Equivalently: the result is the first candidate in the
list whose probe completed with status 0 and matching output. -/
theorem detect_local_tar_first_match (l : List (TarAdapter × ProbeResult)) :
    detect_local_tar l = (l.find? local_probe_ok).map Prod.fst := by
  induction l with
  | nil => rfl
  | cons x rest ih =>
    obtain ⟨t, r⟩ := x
    cases r with
    | launchFailure =>
      rw [detect_local_tar, List.find?_cons_of_neg]
      · exact ih
      · simp [local_probe_ok]
    | completed returncode stdout =>
      by_cases h0 : returncode = 0
      · subst h0
        by_cases hm : t.match_flavor_output stdout = true
        · rw [List.find?_cons_of_pos]
          · simp [detect_local_tar, hm]
          · simp [local_probe_ok, hm]
        · rw [List.find?_cons_of_neg]
          · simp [detect_local_tar, hm, ih]
          · simp [local_probe_ok, hm]
      · rw [List.find?_cons_of_neg]
        · simp [detect_local_tar, h0, ih]
        · simp [local_probe_ok, h0]

/-- Claim C7, counterexample: the matching logic of `detect_remote_tar` is
not identical to `detect_local_tar` — a candidate whose probe exits nonzero
is not skipped.  On a GNU candidate whose probe exits with status 2 but
prints a GNU version banner, `detect_local_tar` skips it and returns `none`,
while `detect_remote_tar` returns the candidate. -/
theorem detect_remote_tar_nonzero_exit_not_skipped :
    detect_local_tar [(TarAdapter.gnu "", ProbeResult.completed 2 "tar (GNU tar) 1.30")] = none
    ∧ detect_remote_tar [(TarAdapter.gnu "", ProbeResult.completed 2 "tar (GNU tar) 1.30")] =
        Except.ok (some (TarAdapter.gnu ""))
    ∧ detect_remote_tar [(TarAdapter.gnu "", ProbeResult.completed 2 "tar (GNU tar) 1.30")] ≠
        Except.ok none := by
  refine ⟨by decide, rfl, fun h => ?_⟩
  rw [show detect_remote_tar [(TarAdapter.gnu "", ProbeResult.completed 2 "tar (GNU tar) 1.30")] =
        Except.ok (some (TarAdapter.gnu "")) from rfl] at h
  exact Option.noConfusion (Except.ok.inj h)

/-- Claim C7 (amended): `detect_remote_tar` scans the candidates in order; a
failure to launch the probe shell process raises a fatal error (distinct
from the `none` result); otherwise the candidate's `match_flavor_output`
predicate is tested on the captured output regardless of the probe's exit
status (a nonzero exit does not skip the candidate); the first candidate
whose predicate holds is returned, and `none` if no candidate matched. -/
theorem detect_remote_tar_first_match (l : List (TarAdapter × ProbeResult)) :
    detect_remote_tar l =
      match l.find? remote_probe_trigger with
      | none => Except.ok none
      | some (_, ProbeResult.launchFailure) => Except.error "Error using connection command"
      | some (t, ProbeResult.completed _ _) => Except.ok (some t) := by
  induction l with
  | nil => rfl
  | cons x rest ih =>
    obtain ⟨t, r⟩ := x
    cases r with
    | launchFailure =>
      rw [List.find?_cons_of_pos]
      · rfl
      · simp [remote_probe_trigger]
    | completed returncode stdout =>
      by_cases hm : t.match_flavor_output stdout = true
      · rw [List.find?_cons_of_pos]
        · simp [detect_remote_tar, hm]
        · simp [remote_probe_trigger, hm]
      · rw [List.find?_cons_of_neg]
        · simp [detect_remote_tar, hm, ih]
        · simp [remote_probe_trigger, hm]

/-- Claim C8: the per-variant tables.  The GNU-style adapter extracts with
the no-same-owner, extract and verbose options, creates with the create,
path, to-stdout and ignore-failed-read options, and matches outputs
containing "GNU tar"; the BSD-style adapter extracts with o, x, v, creates
with c, f, dash, path, and matches "bsdtar"; the BusyBox-style adapter
extracts with x, v, creates with c, f, dash, path, and matches "busybox";
a probe string containing none of the three substrings matches no variant,
so detection over the full default candidate list returns `none` on it. -/
theorem tar_adapter_variant_table (pre src_file output : String) :
    TarAdapter.receiver_options (.gnu pre) = ["--no-same-owner", "--extract", "--verbose"]
    ∧ TarAdapter.sender_options (.gnu pre) src_file =
        ["--create", src_file, "--to-stdout", "--ignore-failed-read"]
    ∧ TarAdapter.match_flavor_output (.gnu pre) output = str_contains output "GNU tar"
    ∧ TarAdapter.receiver_options .bsd = ["-o", "-x", "-v"]
    ∧ TarAdapter.sender_options .bsd src_file = ["-c", "-f", "-", src_file]
    ∧ TarAdapter.match_flavor_output .bsd output = str_contains output "bsdtar"
    ∧ TarAdapter.receiver_options .busybox = ["x", "-v"]
    ∧ TarAdapter.sender_options .busybox src_file = ["c", "-f", "-", src_file]
    ∧ TarAdapter.match_flavor_output .busybox output = str_contains output "busybox"
    ∧ (str_contains output "GNU tar" = false → str_contains output "bsdtar" = false →
        str_contains output "busybox" = false →
        detect_local_tar (default_local_acceptable.map
          (fun t => (t, ProbeResult.completed 0 output))) = none) := by
  refine ⟨rfl, rfl, rfl, rfl, rfl, rfl, rfl, rfl, rfl, ?_⟩
  intro h1 h2 h3
  simp [default_local_acceptable, detect_local_tar, TarAdapter.match_flavor_output, h1, h2, h3]

/-- Evaluation of `tar_adapter_variant_table` on a concrete unrecognized
probe output. -/
theorem tar_adapter_variant_table_witness :
    detect_local_tar (default_local_acceptable.map
      (fun t => (t, ProbeResult.completed 0 "tar: unknown flavor"))) = none :=
  (tar_adapter_variant_table "" "f.txt" "tar: unknown flavor").2.2.2.2.2.2.2.2.2
    (by decide) (by decide) (by decide)

/-- Claim C1, counterexample: it is not true that whenever the sender
subprocess writes a diagnostic containing "No such file or directory",
`copy_file` returns normally — if the subprocess also exits with a nonzero
status, `subprocess.run(check=True)` raises `CalledProcessError` before the
diagnostic is examined (this happens with a non-GNU local tar, which lacks
an ignore-failed-read mode, on a vanished file). -/
theorem copy_file_nsfod_nonzero_exit_raises :
    str_contains "tar: a.txt: No such file or directory" "No such file or directory" = true
    ∧ copy_file 2 "tar: a.txt: No such file or directory" =
        Except.error (CopyFileError.calledProcessError 2)
    ∧ copy_file 2 "tar: a.txt: No such file or directory" ≠ Except.ok () := by
  refine ⟨by decide, rfl, fun h => ?_⟩
  rw [show copy_file 2 "tar: a.txt: No such file or directory" =
        Except.error (CopyFileError.calledProcessError 2) from rfl] at h
  exact Except.noConfusion h

/-- Claim C1 (amended): for a sender subprocess that exits with status 0, a
diagnostic containing "No such file or directory" is swallowed and
`copy_file` returns normally, while any other nonempty diagnostic raises a
fatal `RuntimeError` for the session; a nonzero exit status raises
`CalledProcessError` regardless of the diagnostic. -/
theorem copy_file_diagnostic_policy (returncode : Nat) (stderr : String) :
    (returncode = 0 → str_contains stderr "No such file or directory" = true →
      copy_file returncode stderr = Except.ok ())
    ∧ (returncode = 0 → stderr ≠ "" →
        str_contains stderr "No such file or directory" = false →
        copy_file returncode stderr =
          Except.error (CopyFileError.runtimeError ("ERROR: " ++ stderr)))
    ∧ (returncode ≠ 0 →
        copy_file returncode stderr =
          Except.error (CopyFileError.calledProcessError returncode)) := by
  refine ⟨?_, ?_, ?_⟩
  · intro h0 hc
    subst h0
    by_cases he : stderr = ""
    · simp [copy_file, he]
    · simp [copy_file, he, hc]
  · intro h0 he hc
    subst h0
    simp [copy_file, he, hc]
  · intro h0
    simp [copy_file, h0]

/-- Evaluation of `copy_file_diagnostic_policy` on concrete subprocess
outcomes. -/
theorem copy_file_diagnostic_policy_witness :
    copy_file 0 "tar: a.txt: No such file or directory" = Except.ok ()
    ∧ copy_file 0 "tar: boom" =
        Except.error (CopyFileError.runtimeError ("ERROR: " ++ "tar: boom"))
    ∧ copy_file 3 "" = Except.error (CopyFileError.calledProcessError 3) :=
  ⟨(copy_file_diagnostic_policy 0 "tar: a.txt: No such file or directory").1 rfl (by decide),
   (copy_file_diagnostic_policy 0 "tar: boom").2.1 rfl (by decide) (by decide),
   (copy_file_diagnostic_policy 3 "").2.2 (by decide)⟩

/-- Claim C2: evaluation of the `main` control flow on a run whose resolved
remote adapter is not GNU (here: `--remote-tar-detect` found none), with all
other arguments valid.  The `click.UsageError` of cli.py line 148 is
constructed but never raised, and the session is opened anyway:
`make_file_replicator` is entered with the non-GNU remote adapter. -/
theorem main_non_gnu_remote_session_opened :
    main_model ["docker", "exec", "-i", "c", "bash"] true true none =
      ⟨none, some "Cannot use non-gnu remote tar!", true⟩
    ∧ (main_model ["docker", "exec", "-i", "c", "bash"] true true none).sessionOpened = true
    ∧ (main_model ["docker", "exec", "-i", "c", "bash"] true true none).raisedUsageError =
        none := by
  exact ⟨rfl, rfl, rfl⟩

/-- Claim C3: per-event dispatch policy of the watch-phase handler.  A
deleted event triggers no copy; a modified event on a directory triggers no
copy; a moved event triggers exactly one copy, of the destination path only;
a created event, or a modified event on a non-directory, triggers exactly
one copy, of the primary path. -/
theorem on_any_event_dispatch_policy (e : FsEvent) (dest : FsPath) :
    (e.kind = EventKind.deleted → on_any_event e = [])
    ∧ (e.kind = EventKind.modified → e.is_directory = true → on_any_event e = [])
    ∧ (e.kind = EventKind.moved dest → on_any_event e = [dest])
    ∧ (e.kind = EventKind.created → on_any_event e = [e.src_path])
    ∧ (e.kind = EventKind.modified → e.is_directory = false →
        on_any_event e = [e.src_path]) := by
  obtain ⟨k, dir, s⟩ := e
  refine ⟨?_, ?_, ?_, ?_, ?_⟩
  · intro hk
    subst hk
    simp [on_any_event, EventKind.isDeleted]
  · intro hk hdir
    subst hk
    subst hdir
    simp [on_any_event, EventKind.isDeleted, EventKind.isModified]
  · intro hk
    subst hk
    simp [on_any_event, EventKind.isDeleted, EventKind.isModified, EventKind.movedDest]
  · intro hk
    subst hk
    simp [on_any_event, EventKind.isDeleted, EventKind.isModified, EventKind.movedDest]
  · intro hk hdir
    subst hk
    subst hdir
    simp [on_any_event, EventKind.isDeleted, EventKind.isModified, EventKind.movedDest]

/-- Evaluation of `on_any_event_dispatch_policy` on concrete events: a moved
file copies its destination path, a deleted file copies nothing. -/
theorem on_any_event_dispatch_policy_witness :
    on_any_event ⟨EventKind.moved ["r", "dest.txt"], false, ["r", "src.txt"]⟩ =
      [["r", "dest.txt"]]
    ∧ on_any_event ⟨EventKind.deleted, false, ["r", "gone.txt"]⟩ = [] :=
  ⟨(on_any_event_dispatch_policy
      ⟨EventKind.moved ["r", "dest.txt"], false, ["r", "src.txt"]⟩ ["r", "dest.txt"]).2.2.1 rfl,
   (on_any_event_dispatch_policy ⟨EventKind.deleted, false, ["r", "gone.txt"]⟩ []).1 rfl⟩

/-- Appending to a fixed directory path is injective. -/
theorem os_path_join_inj (dir : FsPath) {a b : FsPath}
    (h : os_path_join dir a = os_path_join dir b) : a = b := by
  have h1 := congrArg (List.drop dir.length) h
  simpa [os_path_join, List.drop_left] using h1

/-- Claim C4: bulk replication copies exactly the discovered files whose
path relative to the source root is not matched by the ignore spec (joined
back onto the source root, in traversal order), and never copies a matched
path. -/
theorem replicate_all_files_filter_spec (src_dir : FsPath) (tree : List FsPath)
    (spec : FsPath → Bool) :
    replicate_all_files src_dir tree spec =
      (tree.filter (fun f => !spec f)).map (os_path_join src_dir)
    ∧ ∀ f ∈ tree, spec f = true →
        os_path_join src_dir f ∉ replicate_all_files src_dir tree spec := by
  have heq : replicate_all_files src_dir tree spec =
      (tree.filter (fun f => !spec f)).map (os_path_join src_dir) := by
    induction tree with
    | nil => rfl
    | cons f rest ih =>
      by_cases h : spec f = true
      · simp [replicate_all_files, h, List.filter_cons, ih]
      · rw [Bool.not_eq_true] at h
        simp [replicate_all_files, h, List.filter_cons, ih]
  refine ⟨heq, ?_⟩
  intro f hf hspec hmem
  rw [heq] at hmem
  rcases List.mem_map.mp hmem with ⟨g, hg, hjoin⟩
  have hgf : g = f := os_path_join_inj src_dir hjoin
  subst hgf
  have hmem2 := List.mem_filter.mp hg
  rw [hspec] at hmem2
  simp at hmem2

/-- Evaluation of `replicate_all_files_filter_spec`: with a spec matching
exactly the relative path a.txt, the copied list is only the joined b.txt,
and the joined a.txt is never copied. -/
theorem replicate_all_files_filter_spec_witness :
    os_path_join ["src"] ["a.txt"] ∉
      replicate_all_files ["src"] [["a.txt"], ["b.txt"]] (fun p => p == ["a.txt"]) :=
  (replicate_all_files_filter_spec ["src"] [["a.txt"], ["b.txt"]]
    (fun p => p == ["a.txt"])).2 ["a.txt"] (by decide) (by decide)

/-- Claim C5: evaluation of the watch-phase dispatch at the failing input.
The ignore spec here models the anchored gitwildmatch pattern "/build": it
matches the path build, x.txt relative to the source root r, so the bulk
phase skips that file, and the claim says the watch phase must drop the
event; but `gitignore_dispatch` tests the spec against the event's absolute
path r, build, x.txt, which does not match, so `copy_file` is invoked. -/
theorem gitignore_dispatch_absolute_path_matching :
    (fun p => p == ["build", "x.txt"]) (os_path_relpath ["r", "build", "x.txt"] ["r"]) = true
    ∧ (fun p => p == ["build", "x.txt"]) (["r", "build", "x.txt"] : FsPath) = false
    ∧ gitignore_dispatch (fun p => p == ["build", "x.txt"])
        ⟨EventKind.created, false, ["r", "build", "x.txt"]⟩ = [["r", "build", "x.txt"]]
    ∧ replicate_all_files ["r"] [["build", "x.txt"]] (fun p => p == ["build", "x.txt"]) =
        [] := by
  refine ⟨by decide, by decide, by decide, by decide⟩

/-- Claim C9, counterexample: a timeout of 0 is non-null (`some 0`, not
`none`) yet falsy in Python, so the `if timeout:` guard skips the
inactivity check entirely — after three polls with elapsed inactivity 5
(which strictly exceeds the timeout 0) and no event, the loop is still
running (`none`) instead of having stopped and returned normally. -/
theorem watch_timeout_zero_never_stops :
    Option.isSome (some 0 : Option Nat) = true
    ∧ (5 : Nat) > 0
    ∧ replicate_files_on_change (some 0) [(5, false), (5, false), (5, false)] = none := by
  refine ⟨rfl, by decide, rfl⟩

/-- Claim C9 (amended): for every watch session started with a non-null and
nonzero caller-supplied timeout, when the inactivity first strictly exceeds
the timeout at some poll (with no earlier poll exceeding it or being
interrupted), the loop stops the observer and returns normally: the timeout
condition is not propagated as an error (`raised = none`), and the
termination path is the designated timed-out one, distinct from an error. -/
theorem watch_timeout_normal_termination (t : Nat) (ht : t ≠ 0)
    (pre : List (Nat × Bool)) (elapsed : Nat) (intr : Bool) (rest : List (Nat × Bool))
    (hpre : ∀ x ∈ pre, x.1 ≤ t ∧ x.2 = false) (helapsed : elapsed > t) :
    replicate_files_on_change (some t) (pre ++ (elapsed, intr) :: rest) =
      some ⟨TerminationPath.timedOut, true, none⟩ := by
  induction pre with
  | nil =>
    simp [replicate_files_on_change, py_truthy, ht, raise_if_timeout, helapsed]
  | cons x xs ih =>
    obtain ⟨e1, b1⟩ := x
    have h1 := hpre (e1, b1) (List.mem_cons_self _ _)
    have hnot : ¬ e1 > t := Nat.not_lt.mpr h1.1
    have hb1 : b1 = false := h1.2
    subst hb1
    simp only [List.cons_append]
    simp [replicate_files_on_change, py_truthy, ht, raise_if_timeout, hnot]
    exact ih (fun x hx => hpre x (List.mem_cons_of_mem _ hx))

/-- Evaluation of `watch_timeout_normal_termination` on a concrete trace:
timeout 1, one quiet poll, then inactivity 2 exceeds the timeout. -/
theorem watch_timeout_normal_termination_witness :
    replicate_files_on_change (some 1) [(1, false), (2, true)] =
      some ⟨TerminationPath.timedOut, true, none⟩ :=
  watch_timeout_normal_termination 1 (by decide) [(1, false)] 2 true []
    (by decide) (by decide)

/-- Claim C10: when `replicate_files_on_change` is called with a falsy
timeout (0 or None), the inactivity check is never performed: without an
external interrupt the loop never terminates (it is still running after any
finite trace of polls, however large the inactivity), and any termination
that does occur is via the interrupt path. -/
theorem watch_no_timeout_only_interrupt_stops (timeout : Option Nat)
    (hfalsy : py_truthy timeout = false) (trace : List (Nat × Bool)) :
    ((∀ x ∈ trace, x.2 = false) → replicate_files_on_change timeout trace = none)
    ∧ ∀ o, replicate_files_on_change timeout trace = some o →
        o.path = TerminationPath.interrupted := by
  induction trace with
  | nil => exact ⟨fun _ => rfl, fun o h => Option.noConfusion h⟩
  | cons x rest ih =>
    obtain ⟨e1, b1⟩ := x
    constructor
    · intro hall
      have hb1 : b1 = false := hall (e1, b1) (List.mem_cons_self _ _)
      subst hb1
      simp [replicate_files_on_change, hfalsy]
      exact ih.1 (fun x hx => hall x (List.mem_cons_of_mem _ hx))
    · intro o ho
      simp only [replicate_files_on_change, hfalsy, Bool.false_eq_true,
        if_false] at ho
      by_cases hb : b1 = true
      · subst hb
        simp only [if_true] at ho
        cases ho
        rfl
      · rw [Bool.not_eq_true] at hb
        subst hb
        simp only [Bool.false_eq_true, if_false] at ho
        exact ih.2 o ho

/-- Evaluation of `watch_no_timeout_only_interrupt_stops`: with no timeout
and no interrupt the loop is still running after two long quiet polls, and
with timeout 0 a stop that does occur is an interrupt. -/
theorem watch_no_timeout_only_interrupt_stops_witness :
    replicate_files_on_change none [(1000000, false), (1000000, false)] = none
    ∧ (⟨TerminationPath.interrupted, true, none⟩ : WatchOutcome).path =
        TerminationPath.interrupted :=
  ⟨(watch_no_timeout_only_interrupt_stops none rfl
      [(1000000, false), (1000000, false)]).1 (by decide),
   (watch_no_timeout_only_interrupt_stops (some 0) (by decide) [(7, true)]).2
      ⟨TerminationPath.interrupted, true, none⟩ (by decide)⟩
